import Mathlib

/-!
# Verification of the e-wallet client's core flows

Shallow embedding of the business logic of the FE-Ewallet-Xendit client:
the top-up payment-status poller (`src/pages/wallet/topup.tsx`, with an
identical polling loop in the fee-free variant), the fee estimators, the
top-up submission validation, and the transfer / withdraw preview and
submission handlers (`src/pages/wallet/transfer.tsx`,
`src/pages/wallet/withdraw.tsx`).

Money amounts that the source manipulates with JavaScript `parseFloat` /
`* 0.01` arithmetic are modelled as exact rationals (`ℚ`); integer-only
amounts (top-up) are modelled as `Nat`.  User-visible strings that the
source builds with locale formatting (`formatCurrency`, `toLocaleString`)
are kept as fixed descriptive strings, since no claim depends on digit
grouping.
-/

/-! ## Configuration constants (`topup.tsx`) -/

def MIN_TOPUP_AMOUNT : Nat := 10000
def MAX_TOPUP_AMOUNT : Nat := 10000000
def MAX_ATTEMPTS : Nat := 36
def POLLING_INTERVAL : Nat := 5000
def STANDARD_FEE : Nat := 2500
def HIGH_AMOUNT_THRESHOLD : Nat := 250000000
def HIGH_AMOUNT_FEE : Nat := 50000

/-- Fee calculation of the fee-charging top-up variant (`topup.tsx`):
`amount >= HIGH_AMOUNT_THRESHOLD ? HIGH_AMOUNT_FEE : STANDARD_FEE`. -/
def calculateTransactionFee (amount : Nat) : Nat :=
  if amount ≥ HIGH_AMOUNT_THRESHOLD then HIGH_AMOUNT_FEE else STANDARD_FEE

/-- Fee calculation of the fee-free top-up variant (second topup page):
`return 0` unconditionally. -/
def calculateTransactionFeeFree (_amount : Nat) : Nat := 0

/-! ## Payment data model (`topup.tsx` interfaces) -/

/-- The `PaymentStatus` snapshot returned by each status poll.  The
source declares `status` as a string union; it is kept as `String` here
because the poller's `switch` has a `default` branch for values outside
the four known statuses. -/
structure PaymentStatus where
  status : String
  amount : Nat
  referenceId : String
  currentBalance : Nat
  createdAt : String
deriving DecidableEq, Repr

/-- Outcome of one `checkPaymentStatus` call: a parsed snapshot, or a
thrown error (non-ok HTTP response / network failure). -/
inductive PollResult where
  | ok (statusData : PaymentStatus)
  | err
deriving DecidableEq, Repr

/-- `true` iff the poll attempt resolved to a snapshot with status
`"PENDING"`. -/
def PollResult.isPending : PollResult → Bool
  | .ok sd => sd.status = "PENDING"
  | .err => false

/-- The component phase, `paymentStatus` in the source:
`"idle" | "processing" | "waiting" | "success" | "failed"`. -/
inductive PaymentPhase where
  | idle
  | processing
  | waiting
  | success
  | failed
deriving DecidableEq, Repr

/-- The observable state the polling loop reads and writes: the React
state variables `isPolling`, `paymentStatus`, `pollingAttempts`,
`currentBalance`, `currentReferenceId`. -/
structure PollerState where
  isPolling : Bool
  paymentStatus : PaymentPhase
  pollingAttempts : Nat
  currentBalance : Nat
  currentReferenceId : String
deriving DecidableEq, Repr

/-- One execution of the `pollStatus(attemptNumber)` body, given the
resolved result of its `checkPaymentStatus` call.  Returns the updated
state and the attempt number the body schedules next (`none` when no
`setTimeout(pollStatus ...)` is issued).  Mirrors the source exactly:
`setPollingAttempts(attemptNumber + 1)` happens first (it precedes the
awaited call, so it is visible on the error path too); then the `switch`
on `statusData.status` with `COMPLETED`, `FAILED`/`CANCELLED`, `PENDING`
(budget check against `MAX_ATTEMPTS - 1`) and `default` branches; the
`catch` branch repeats the `PENDING` budget logic. -/
def pollStep (attemptNumber : Nat) (result : PollResult) (st : PollerState) :
    PollerState × Option Nat :=
  let st := { st with pollingAttempts := attemptNumber + 1 }
  match result with
  | .ok sd =>
    if sd.status = "COMPLETED" then
      ({ st with isPolling := false, paymentStatus := .success,
                 currentBalance := sd.currentBalance }, none)
    else if sd.status = "FAILED" || sd.status = "CANCELLED" then
      ({ st with isPolling := false, paymentStatus := .failed }, none)
    else if sd.status = "PENDING" then
      if attemptNumber < MAX_ATTEMPTS - 1 then
        (st, some (attemptNumber + 1))
      else
        ({ st with isPolling := false, paymentStatus := .failed }, none)
    else
      (st, none)
  | .err =>
    if attemptNumber < MAX_ATTEMPTS - 1 then
      (st, some (attemptNumber + 1))
    else
      ({ st with isPolling := false, paymentStatus := .failed }, none)

/-- The timer chain: each scheduled `setTimeout` callback first checks
`if (isPolling)` against the then-current state and only then runs
`pollStatus` for the scheduled attempt number.  `script n` is the
resolved result of attempt `n`'s status request.  Returns the final
state and the trace of states observed after each attempt that actually
executed (so the trace length is the number of status requests issued).
`fuel` bounds the recursion; the loop itself stops via the attempt
budget, so any `fuel ≥ MAX_ATTEMPTS` is sufficient. -/
def pollRun (script : Nat → PollResult) :
    Nat → Nat → PollerState → PollerState × List PollerState
  | 0, _, st => (st, [])
  | fuel + 1, n, st =>
    if st.isPolling then
      let r := pollStep n (script n) st
      match r.2 with
      | none => (r.1, [r.1])
      | some k =>
        let rest := pollRun script fuel k r.1
        (rest.1, r.1 :: rest.2)
    else
      (st, [])

/-- `startPaymentPolling(referenceId)` before the first timer fires:
`setIsPolling(true); setPollingAttempts(0); setPaymentStatus("waiting");
setCurrentReferenceId(referenceId)`. -/
def startPolling (referenceId : String) (st : PollerState) : PollerState :=
  { st with isPolling := true, pollingAttempts := 0,
            paymentStatus := .waiting, currentReferenceId := referenceId }

/-- A whole polling session: `startPaymentPolling` followed by the
initial 2-second timer firing attempt 0 (guarded by `if (isPolling)`,
which `pollRun` checks at the head of every attempt). -/
def pollSession (script : Nat → PollResult) (fuel : Nat)
    (referenceId : String) (st : PollerState) : PollerState × List PollerState :=
  pollRun script fuel 0 (startPolling referenceId st)

/-- `stopPolling` (the user-facing cancel button):
`setIsPolling(false); setPaymentStatus("idle"); setCurrentReferenceId("");
setPollingAttempts(0)`. -/
def stopPolling (st : PollerState) : PollerState :=
  { st with isPolling := false, paymentStatus := .idle,
            currentReferenceId := "", pollingAttempts := 0 }

/-! ## Top-up submission validation (`topup.tsx`) -/

structure PaymentMethod where
  id : String
  name : String
  requiresRedirect : Bool
  description : String
deriving DecidableEq, Repr

/-- The static payment-method catalog `PAYMENT_METHODS`. -/
def PAYMENT_METHODS : List PaymentMethod :=
  [⟨"ID_OVO", "OVO", false, "Scan QR atau buka app OVO"⟩,
   ⟨"ID_DANA", "DANA", true, "Redirect ke app DANA"⟩,
   ⟨"ID_LINKAJA", "LinkAja", false, "Scan QR atau buka app LinkAja"⟩,
   ⟨"ID_SHOPEEPAY", "ShopeePay", true, "Redirect ke app ShopeePay"⟩]

/-- `validateAmount`: `null` on success, an error message otherwise.
The source's first guard is `!amount || amount <= 0`, which for a
non-negative integer amount means `amount = 0`. -/
def validateAmount (amount : Nat) : Option String :=
  if amount = 0 then some "Jumlah harus lebih dari 0"
  else if amount < MIN_TOPUP_AMOUNT then some "Minimum top up Rp 10.000"
  else if amount > MAX_TOPUP_AMOUNT then some "Maximum top up Rp 10.000.000"
  else none

/-- `getSelectedPaymentMethod`: lookup of the chosen id in the static
catalog. -/
def getSelectedPaymentMethod (paymentMethod : String) : Option PaymentMethod :=
  PAYMENT_METHODS.find? (fun m => m.id = paymentMethod)

/-- The client-side `FeeCalculation` record (breakdown fields elided;
they duplicate `amount`, `fee`, `total`). -/
structure FeeCalculation where
  amount : Nat
  fee : Nat
  total : Nat
  feeType : String
deriving DecidableEq, Repr

/-- The locally computed fee breakdown set by `calculateFeeForAmount`
before the optional server verification. -/
def localFeeCalculation (amount : Nat) : FeeCalculation :=
  { amount := amount
    fee := calculateTransactionFee amount
    total := amount + calculateTransactionFee amount
    feeType := if amount ≥ 250000000 then "High Amount Fee (Rp 50,000)"
               else "Standard Fee (Rp 2,500)" }

/-- How far `handleSubmit` gets before (or instead of) contacting the
network: a synchronous validation error, the insufficient-fee-balance
rejection, or the `createTopUpRequest` network call with its arguments. -/
inductive SubmitOutcome where
  | validationError (message : String)
  | insufficientFee (requiredFee : Nat)
  | networkRequest (amount : Nat) (paymentMethod : String)
deriving DecidableEq, Repr

/-- The synchronous prefix of `handleSubmit`, in source order: empty
payment method, `validateAmount`, catalog lookup, fee-vs-balance check,
then and only then `createTopUpRequest(amount, paymentMethod)`. -/
def handleSubmitValidate (paymentMethod : String) (amount : Nat)
    (feeCalculation : Option FeeCalculation) (currentBalance : Nat) :
    SubmitOutcome :=
  if paymentMethod = "" then
    .validationError "Pilih metode pembayaran terlebih dahulu"
  else
    match validateAmount amount with
    | some msg => .validationError msg
    | none =>
      match getSelectedPaymentMethod paymentMethod with
      | none => .validationError "Metode pembayaran tidak valid"
      | some _ =>
        match feeCalculation with
        | some fc =>
          if currentBalance < fc.fee then .insufficientFee fc.fee
          else .networkRequest amount paymentMethod
        | none => .networkRequest amount paymentMethod

/-! ## Transfer preview and submission (`transfer.tsx`)

Amounts come from `parseFloat` and are combined with `* 0.01`; they are
modelled as exact rationals. -/

/-- The `TransferDetails` preview record built by
`handleInitiateTransfer` for the confirmation dialog. -/
structure TransferDetails where
  recipientId : String
  amount : ℚ
  fee : ℚ
  total : ℚ
  description : String
deriving DecidableEq, Repr

/-- Result of the synchronous preview handler: which toast stopped it,
or the details handed to the confirmation dialog. -/
inductive TransferOutcome where
  | missingRecipient
  | invalidAmount
  | insufficientBalance
  | confirm (details : TransferDetails)
deriving DecidableEq, Repr

/-- `handleInitiateTransfer`, in source order: recipient-id presence,
`!amountValue || amountValue <= 0`, then `fee = amountValue * 0.01`,
`totalAmount = amountValue + fee`, `totalAmount > balance` check, then
the details record and `setConfirmOpen(true)`. -/
def handleInitiateTransfer (recipientId : String) (amountValue : ℚ)
    (description : String) (balance : ℚ) : TransferOutcome :=
  if recipientId = "" then .missingRecipient
  else if amountValue ≤ 0 then .invalidAmount
  else
    let fee := amountValue * (1 / 100)
    let totalAmount := amountValue + fee
    if totalAmount > balance then .insufficientBalance
    else .confirm
      { recipientId := recipientId
        amount := amountValue
        fee := fee
        total := totalAmount
        description := if description = "" then "Transfer to user" else description }

/-- The fee of the previewed transfer, when the preview passed
validation. -/
def TransferOutcome.previewFee : TransferOutcome → Option ℚ
  | .confirm d => some d.fee
  | _ => none

/-- The total debit of the previewed transfer, when the preview passed
validation. -/
def TransferOutcome.previewTotal : TransferOutcome → Option ℚ
  | .confirm d => some d.total
  | _ => none

/-! ## Withdraw preview (`withdraw.tsx`) -/

/-- The `WithdrawDetails` preview record. -/
structure WithdrawDetails where
  amount : ℚ
  fee : ℚ
  actualAmount : ℚ
  bankCode : String
  accountNumber : String
  accountHolderName : String
deriving DecidableEq, Repr

inductive WithdrawOutcome where
  | missingBank
  | missingAccount
  | invalidAmount
  | insufficientBalance
  | confirm (details : WithdrawDetails)
deriving DecidableEq, Repr

/-- `handleInitiateWithdraw`, in source order: bank selected,
`!accountNumber || !accountHolderName`, `!amountValue || amountValue <= 0`,
`amountValue > balance`, then `fee = amountValue * 0.01` and
`actualAmount = amountValue - fee`. -/
def handleInitiateWithdraw (bankCode accountNumber accountHolderName : String)
    (amountValue balance : ℚ) : WithdrawOutcome :=
  if bankCode = "" then .missingBank
  else if accountNumber = "" || accountHolderName = "" then .missingAccount
  else if amountValue ≤ 0 then .invalidAmount
  else if amountValue > balance then .insufficientBalance
  else
    let fee := amountValue * (1 / 100)
    .confirm
      { amount := amountValue
        fee := fee
        actualAmount := amountValue - fee
        bankCode := bankCode
        accountNumber := accountNumber
        accountHolderName := accountHolderName }

/-- The amount the previewed withdrawal says the bank account will
receive. -/
def WithdrawOutcome.previewReceived : WithdrawOutcome → Option ℚ
  | .confirm d => some d.actualAmount
  | _ => none

/-- The fee of the previewed withdrawal. -/
def WithdrawOutcome.previewWithdrawFee : WithdrawOutcome → Option ℚ
  | .confirm d => some d.fee
  | _ => none

/-! ## Submission handlers (`handleTransfer` / `handleWithdraw`)

Each performs exactly one network call (a single `await` with no loop),
so "no automatic retry" is structural: the model consumes exactly one
`NetResult`.  The `devMode` flag is `process.env.NODE_ENV ===
'development'`. -/

/-- Resolution of the one-shot submission call: success (with the
optional `recipientName` of the transfer response), or a failure
carrying `error.response?.data?.error` when the server supplied one. -/
inductive NetResult where
  | ok (recipientName : Option String)
  | fail (serverError : Option String)
deriving DecidableEq, Repr

structure Toast where
  title : String
  description : String
  destructive : Bool
deriving DecidableEq, Repr

/-- The user-visible effect of a submission handler: the toast shown,
whether the confirmation dialog ends open, and whether the router
navigated back to the dashboard. -/
structure SubmitEffect where
  toast : Toast
  confirmOpen : Bool
  navigateHome : Bool
deriving DecidableEq, Repr

/-- `handleTransfer` after its `transferFunds` call resolves.  On
success: success toast, `setConfirmOpen(false)`, `router.push('/')`.
On failure in development mode: the simulation branch shows a success
toast and also closes and navigates.  On failure otherwise: destructive
toast with the server's message or the generic fallback, and
`setConfirmOpen(false)`. -/
def handleTransfer (devMode : Bool) (details : TransferDetails)
    (result : NetResult) : SubmitEffect :=
  match result with
  | .ok recipientName =>
    { toast := ⟨"Transfer Successful", recipientName.getD "recipient", false⟩
      confirmOpen := false
      navigateHome := true }
  | .fail serverError =>
    if devMode then
      { toast := ⟨"Transfer Successful (Simulation)",
                  toString details.amount, false⟩
        confirmOpen := false
        navigateHome := true }
    else
      { toast := ⟨"Transfer Failed",
                  serverError.getD "Failed to process your transfer", true⟩
        confirmOpen := false
        navigateHome := false }

/-- `handleWithdraw` after its `withdrawFunds` call resolves; same shape
as `handleTransfer` with the withdraw strings. -/
def handleWithdraw (devMode : Bool) (details : WithdrawDetails)
    (result : NetResult) : SubmitEffect :=
  match result with
  | .ok _ =>
    { toast := ⟨"Withdrawal Initiated", toString details.actualAmount, false⟩
      confirmOpen := false
      navigateHome := true }
  | .fail serverError =>
    if devMode then
      { toast := ⟨"Withdrawal Initiated (Simulation)",
                  toString details.actualAmount, false⟩
        confirmOpen := false
        navigateHome := true }
    else
      { toast := ⟨"Withdrawal Failed",
                  serverError.getD "Failed to process your withdrawal", true⟩
        confirmOpen := false
        navigateHome := false }

/-! ## Poller step lemmas -/

/-- A `PENDING` snapshot takes the budget-checking branch: schedule the
next attempt while `attemptNumber < MAX_ATTEMPTS - 1`, otherwise time
out to `failed`. -/
theorem pollStep_pending (n : Nat) (r : PollResult) (st : PollerState)
    (h : r.isPending = true) :
    pollStep n r st =
      if n < MAX_ATTEMPTS - 1 then
        ({ st with pollingAttempts := n + 1 }, some (n + 1))
      else
        ({ st with pollingAttempts := n + 1, isPolling := false,
                   paymentStatus := .failed }, none) := by
  cases r with
  | err => simp [PollResult.isPending] at h
  | ok sd =>
    have hs : sd.status = "PENDING" := by
      simpa [PollResult.isPending] using h
    simp [pollStep, hs]

/-- A `COMPLETED` snapshot stops the loop, moves to `success` and adopts
the snapshot's `currentBalance`. -/
theorem pollStep_completed (n : Nat) (sd : PaymentStatus) (st : PollerState)
    (h : sd.status = "COMPLETED") :
    pollStep n (.ok sd) st =
      ({ st with pollingAttempts := n + 1, isPolling := false,
                 paymentStatus := .success,
                 currentBalance := sd.currentBalance }, none) := by
  simp [pollStep, h]

/-- Running the loop from attempt `n` on a script of all-`PENDING`
results: it executes the remaining `MAX_ATTEMPTS - n` attempts, every
state but the last keeps the starting phase, the last is `failed`, and
the loop stops with `isPolling = false` and the attempt counter at the
budget. -/
theorem pollRun_all_pending (script : Nat → PollResult)
    (hs : ∀ m, (script m).isPending = true) :
    ∀ fuel n st, st.isPolling = true → n < MAX_ATTEMPTS →
      MAX_ATTEMPTS - n ≤ fuel →
      (pollRun script fuel n st).1 =
        { st with pollingAttempts := MAX_ATTEMPTS, isPolling := false,
                  paymentStatus := .failed } ∧
      (pollRun script fuel n st).2.map PollerState.paymentStatus =
        List.replicate (MAX_ATTEMPTS - 1 - n) st.paymentStatus ++
          [PaymentPhase.failed] := by
  intro fuel
  induction fuel with
  | zero =>
    intro n st _ hn hfuel
    exact absurd hfuel (by unfold MAX_ATTEMPTS at hn ⊢; omega)
  | succ fuel ih =>
    intro n st hactive hn hfuel
    by_cases hlt : n < MAX_ATTEMPTS - 1
    · have hstep := pollStep_pending n (script n) st (hs n)
      rw [if_pos hlt] at hstep
      have hrec := ih (n + 1) { st with pollingAttempts := n + 1 }
        (by simpa using hactive)
        (by unfold MAX_ATTEMPTS at hlt ⊢; omega)
        (by unfold MAX_ATTEMPTS at hfuel hlt ⊢; omega)
      simp only [hactive] at hstep hrec
      have hrep : MAX_ATTEMPTS - 1 - n = (MAX_ATTEMPTS - 1 - (n + 1)) + 1 := by
        unfold MAX_ATTEMPTS at hlt ⊢; omega
      constructor
      · simp only [pollRun, hactive, if_true, hstep]
        rw [hrec.1]
      · simp only [pollRun, hactive, if_true, hstep, List.map_cons]
        rw [hrec.2, hrep, List.replicate_succ]
        simp
    · have hstep := pollStep_pending n (script n) st (hs n)
      rw [if_neg hlt] at hstep
      have hn35 : n + 1 = MAX_ATTEMPTS := by
        unfold MAX_ATTEMPTS at hn hlt ⊢; omega
      have hrep : MAX_ATTEMPTS - 1 - n = 0 := by
        unfold MAX_ATTEMPTS at hn hlt ⊢; omega
      constructor
      · simp only [pollRun, hactive, if_true, hstep]
        simp [hn35]
      · simp only [pollRun, hactive, if_true, hstep]
        simp [hrep]

/-- Running the loop from attempt `n` on a script whose first
`MAX_ATTEMPTS - 1` results are `PENDING` and whose final allowed
attempt returns a `COMPLETED` snapshot `sd`: each attempt up to the last
keeps the starting phase, the last moves to `success` exactly once, the
loop stops, and `sd.currentBalance` becomes the balance. -/
theorem pollRun_pending_then_completed (script : Nat → PollResult)
    (sd : PaymentStatus) (hsd : sd.status = "COMPLETED")
    (hpend : ∀ m, m < MAX_ATTEMPTS - 1 → (script m).isPending = true)
    (hlast : script (MAX_ATTEMPTS - 1) = .ok sd) :
    ∀ fuel n st, st.isPolling = true → n < MAX_ATTEMPTS →
      MAX_ATTEMPTS - n ≤ fuel →
      (pollRun script fuel n st).1 =
        { st with pollingAttempts := MAX_ATTEMPTS, isPolling := false,
                  paymentStatus := .success,
                  currentBalance := sd.currentBalance } ∧
      (pollRun script fuel n st).2.map PollerState.paymentStatus =
        List.replicate (MAX_ATTEMPTS - 1 - n) st.paymentStatus ++
          [PaymentPhase.success] := by
  intro fuel
  induction fuel with
  | zero =>
    intro n st _ hn hfuel
    exact absurd hfuel (by unfold MAX_ATTEMPTS at hn ⊢; omega)
  | succ fuel ih =>
    intro n st hactive hn hfuel
    by_cases hlt : n < MAX_ATTEMPTS - 1
    · have hstep := pollStep_pending n (script n) st (hpend n hlt)
      rw [if_pos hlt] at hstep
      have hrec := ih (n + 1) { st with pollingAttempts := n + 1 }
        (by simpa using hactive)
        (by unfold MAX_ATTEMPTS at hlt ⊢; omega)
        (by unfold MAX_ATTEMPTS at hfuel hlt ⊢; omega)
      simp only [hactive] at hstep hrec
      have hrep : MAX_ATTEMPTS - 1 - n = (MAX_ATTEMPTS - 1 - (n + 1)) + 1 := by
        unfold MAX_ATTEMPTS at hlt ⊢; omega
      constructor
      · simp only [pollRun, hactive, if_true, hstep]
        rw [hrec.1]
      · simp only [pollRun, hactive, if_true, hstep, List.map_cons]
        rw [hrec.2, hrep, List.replicate_succ]
        simp
    · have hn35 : n = MAX_ATTEMPTS - 1 := by
        unfold MAX_ATTEMPTS at hn hlt ⊢; omega
      subst hn35
      have hstep := pollStep_completed (MAX_ATTEMPTS - 1) sd st hsd
      have hsucc : MAX_ATTEMPTS - 1 + 1 = MAX_ATTEMPTS := by
        unfold MAX_ATTEMPTS; omega
      constructor
      · simp only [pollRun, hactive, if_true, hlast, hstep]
        simp [hsucc]
      · simp only [pollRun, hactive, if_true, hlast, hstep]
        simp [Nat.sub_self]

/-! ## Claim theorems: the poller -/

/-- C1: for every polling session in which all status polls return
`PENDING`, the poller performs exactly 36 poll attempts, every attempt
before the last leaves the session in the `waiting` phase, the 36th
`PENDING` result transitions it to `failed`, and no 37th status request
is issued (the trace of executed attempts has length exactly 36 for
every sufficient timer budget). -/
theorem poller_timeout_after_36_pending (script : Nat → PollResult)
    (referenceId : String) (st : PollerState) (fuel : Nat)
    (hs : ∀ m, (script m).isPending = true) (hfuel : MAX_ATTEMPTS ≤ fuel) :
    (pollSession script fuel referenceId st).2.length = 36 ∧
    (pollSession script fuel referenceId st).2.map PollerState.paymentStatus =
      List.replicate 35 PaymentPhase.waiting ++ [PaymentPhase.failed] ∧
    (pollSession script fuel referenceId st).1.paymentStatus = .failed ∧
    (pollSession script fuel referenceId st).1.isPolling = false ∧
    (pollSession script fuel referenceId st).1.pollingAttempts = 36 := by
  have h := pollRun_all_pending script hs fuel 0 (startPolling referenceId st)
    (by simp [startPolling]) (by unfold MAX_ATTEMPTS; omega)
    (by unfold MAX_ATTEMPTS at hfuel ⊢; omega)
  unfold pollSession
  refine ⟨?_, ?_, ?_, ?_, ?_⟩
  · have := congrArg List.length h.2
    simpa [startPolling, MAX_ATTEMPTS] using this
  · simpa [startPolling, MAX_ATTEMPTS] using h.2
  · rw [h.1]
  · rw [h.1]
  · rw [h.1]; unfold MAX_ATTEMPTS; rfl

/-- Witness for C1: a concrete all-`PENDING` script, fuel 36. -/
theorem poller_timeout_after_36_pending_witness :
    (pollSession (fun _ => .ok ⟨"PENDING", 100000, "ref-1", 500000, "t0"⟩)
        36 "ref-1" ⟨false, .idle, 0, 500000, ""⟩).2.length = 36 ∧
    (pollSession (fun _ => .ok ⟨"PENDING", 100000, "ref-1", 500000, "t0"⟩)
        36 "ref-1" ⟨false, .idle, 0, 500000, ""⟩).2.map PollerState.paymentStatus =
      List.replicate 35 PaymentPhase.waiting ++ [PaymentPhase.failed] ∧
    (pollSession (fun _ => .ok ⟨"PENDING", 100000, "ref-1", 500000, "t0"⟩)
        36 "ref-1" ⟨false, .idle, 0, 500000, ""⟩).1.paymentStatus = .failed ∧
    (pollSession (fun _ => .ok ⟨"PENDING", 100000, "ref-1", 500000, "t0"⟩)
        36 "ref-1" ⟨false, .idle, 0, 500000, ""⟩).1.isPolling = false ∧
    (pollSession (fun _ => .ok ⟨"PENDING", 100000, "ref-1", 500000, "t0"⟩)
        36 "ref-1" ⟨false, .idle, 0, 500000, ""⟩).1.pollingAttempts = 36 :=
  poller_timeout_after_36_pending _ "ref-1" ⟨false, .idle, 0, 500000, ""⟩ 36
    (fun _ => by decide) (by decide)

/-- C2: for every polling session fed 35 `PENDING` responses followed by
one `COMPLETED` response, the poller reaches `success` exactly once (the
phase trace is 35 × `waiting` then one `success`), issues no poll after
the `COMPLETED` response (exactly 36 attempts execute), and adopts the
`currentBalance` of the final response as the displayed balance. -/
theorem poller_success_on_completed (script : Nat → PollResult)
    (sd : PaymentStatus) (referenceId : String) (st : PollerState) (fuel : Nat)
    (hsd : sd.status = "COMPLETED")
    (hpend : ∀ m, m < 35 → (script m).isPending = true)
    (hlast : script 35 = .ok sd) (hfuel : MAX_ATTEMPTS ≤ fuel) :
    (pollSession script fuel referenceId st).2.length = 36 ∧
    (pollSession script fuel referenceId st).2.map PollerState.paymentStatus =
      List.replicate 35 PaymentPhase.waiting ++ [PaymentPhase.success] ∧
    ((pollSession script fuel referenceId st).2.map
        PollerState.paymentStatus).count PaymentPhase.success = 1 ∧
    (pollSession script fuel referenceId st).1.paymentStatus = .success ∧
    (pollSession script fuel referenceId st).1.isPolling = false ∧
    (pollSession script fuel referenceId st).1.currentBalance =
      sd.currentBalance := by
  have h := pollRun_pending_then_completed script sd hsd
    (by intro m hm; exact hpend m (by unfold MAX_ATTEMPTS at hm; omega))
    (by unfold MAX_ATTEMPTS; simpa using hlast)
    fuel 0 (startPolling referenceId st)
    (by simp [startPolling]) (by unfold MAX_ATTEMPTS; omega)
    (by unfold MAX_ATTEMPTS at hfuel ⊢; omega)
  unfold pollSession
  have hmap : (pollRun script fuel 0 (startPolling referenceId st)).2.map
      PollerState.paymentStatus =
      List.replicate 35 PaymentPhase.waiting ++ [PaymentPhase.success] := by
    simpa [startPolling, MAX_ATTEMPTS] using h.2
  refine ⟨?_, hmap, ?_, ?_, ?_, ?_⟩
  · have := congrArg List.length hmap
    simpa using this
  · rw [hmap]; decide
  · rw [h.1]
  · rw [h.1]
  · rw [h.1]

/-- Witness for C2: 35 concrete `PENDING` results then a `COMPLETED`
snapshot carrying balance 600000. -/
theorem poller_success_on_completed_witness :
    (pollSession
        (fun n => if n < 35 then .ok ⟨"PENDING", 100000, "ref-2", 500000, "t0"⟩
                  else .ok ⟨"COMPLETED", 100000, "ref-2", 600000, "t1"⟩)
        36 "ref-2" ⟨false, .idle, 0, 500000, ""⟩).2.length = 36 ∧
    (pollSession
        (fun n => if n < 35 then .ok ⟨"PENDING", 100000, "ref-2", 500000, "t0"⟩
                  else .ok ⟨"COMPLETED", 100000, "ref-2", 600000, "t1"⟩)
        36 "ref-2" ⟨false, .idle, 0, 500000, ""⟩).2.map PollerState.paymentStatus =
      List.replicate 35 PaymentPhase.waiting ++ [PaymentPhase.success] ∧
    ((pollSession
        (fun n => if n < 35 then .ok ⟨"PENDING", 100000, "ref-2", 500000, "t0"⟩
                  else .ok ⟨"COMPLETED", 100000, "ref-2", 600000, "t1"⟩)
        36 "ref-2" ⟨false, .idle, 0, 500000, ""⟩).2.map
        PollerState.paymentStatus).count PaymentPhase.success = 1 ∧
    (pollSession
        (fun n => if n < 35 then .ok ⟨"PENDING", 100000, "ref-2", 500000, "t0"⟩
                  else .ok ⟨"COMPLETED", 100000, "ref-2", 600000, "t1"⟩)
        36 "ref-2" ⟨false, .idle, 0, 500000, ""⟩).1.paymentStatus = .success ∧
    (pollSession
        (fun n => if n < 35 then .ok ⟨"PENDING", 100000, "ref-2", 500000, "t0"⟩
                  else .ok ⟨"COMPLETED", 100000, "ref-2", 600000, "t1"⟩)
        36 "ref-2" ⟨false, .idle, 0, 500000, ""⟩).1.isPolling = false ∧
    (pollSession
        (fun n => if n < 35 then .ok ⟨"PENDING", 100000, "ref-2", 500000, "t0"⟩
                  else .ok ⟨"COMPLETED", 100000, "ref-2", 600000, "t1"⟩)
        36 "ref-2" ⟨false, .idle, 0, 500000, ""⟩).1.currentBalance = 600000 :=
  poller_success_on_completed _ ⟨"COMPLETED", 100000, "ref-2", 600000, "t1"⟩
    "ref-2" ⟨false, .idle, 0, 500000, ""⟩ 36 rfl
    (fun m hm => by simp [if_pos hm]; rfl) (by decide) (by decide)

/-- C3: once the user cancels (`stopPolling` clears `isPolling`) while
the session is in the `waiting` phase, no poll attempt ever executes
again: a timer already scheduled for any attempt `k` fires into the
`if (isPolling)` guard and does nothing, for any script and any timer
budget.  The executed-attempt trace from the cancelled state is empty
and the state is untouched. -/
theorem cancellation_prevents_further_polls (script : Nat → PollResult)
    (fuel k : Nat) (st : PollerState) (h : st.paymentStatus = .waiting) :
    pollRun script fuel k (stopPolling st) = (stopPolling st, []) := by
  cases fuel <;> simp [pollRun, stopPolling]

/-- Witness for C3: cancelling after attempt 3 of a session; the already
scheduled attempt 3 runs no poll. -/
theorem cancellation_prevents_further_polls_witness :
    pollRun (fun _ => .ok ⟨"PENDING", 100000, "ref-3", 500000, "t0"⟩) 36 3
        (stopPolling ⟨true, .waiting, 3, 500000, "ref-3"⟩) =
      (stopPolling ⟨true, .waiting, 3, 500000, "ref-3"⟩, []) :=
  cancellation_prevents_further_polls _ 36 3
    ⟨true, .waiting, 3, 500000, "ref-3"⟩ rfl

/-- C4: a poll attempt that throws is handled exactly like a `PENDING`
result: for an attempt number below the final one (`MAX_ATTEMPTS - 1`,
i.e. fewer than 36 attempts made), the state after the error equals the
state after a `PENDING` response, the phase is unchanged (no transition
to `failed`), and the next attempt is scheduled; only on the final
allowed attempt (the 36th, `attemptNumber = 35`) does an error move the
session to `failed` with nothing scheduled. -/
theorem poll_error_treated_as_pending (n : Nat) (st : PollerState)
    (sd : PaymentStatus) (hsd : sd.status = "PENDING") :
    (n < MAX_ATTEMPTS - 1 →
      pollStep n .err st = pollStep n (.ok sd) st ∧
      pollStep n .err st = ({ st with pollingAttempts := n + 1 }, some (n + 1)) ∧
      (pollStep n .err st).1.paymentStatus = st.paymentStatus) ∧
    (MAX_ATTEMPTS - 1 ≤ n →
      pollStep n .err st =
        ({ st with pollingAttempts := n + 1, isPolling := false,
                   paymentStatus := .failed }, none)) := by
  constructor
  · intro hlt
    have herr : pollStep n .err st =
        ({ st with pollingAttempts := n + 1 }, some (n + 1)) := by
      simp [pollStep, hlt]
    refine ⟨?_, herr, by rw [herr]⟩
    rw [herr, pollStep_pending n (.ok sd) st (by simp [PollResult.isPending, hsd]),
        if_pos hlt]
  · intro hge
    simp [pollStep, Nat.not_lt.mpr hge]

/-- Witness for C4: the error path at attempt 35 (the 36th and final
attempt) fails the session. -/
theorem poll_error_treated_as_pending_witness :
    pollStep 35 .err ⟨true, .waiting, 35, 500000, "ref-4"⟩ =
      ({ isPolling := false, paymentStatus := .failed, pollingAttempts := 36,
         currentBalance := 500000, currentReferenceId := "ref-4" }, none) :=
  (poll_error_treated_as_pending 35 ⟨true, .waiting, 35, 500000, "ref-4"⟩
    ⟨"PENDING", 0, "ref-4", 0, "t0"⟩ rfl).2 (by decide)

/-! ## Claim theorems: fees and validation -/

/-- C5: for every positive amount the fee-charging top-up estimator
returns the standard flat fee 2500 below the 250000000 threshold and the
high flat fee 50000 at or above it, and the fee-free variant returns 0;
each variant is a single uniform policy (its value is fixed by the
amount alone through these two cases). -/
theorem topup_fee_step_function (a : Nat) (ha : 0 < a) :
    (a < HIGH_AMOUNT_THRESHOLD → calculateTransactionFee a = STANDARD_FEE) ∧
    (HIGH_AMOUNT_THRESHOLD ≤ a → calculateTransactionFee a = HIGH_AMOUNT_FEE) ∧
    calculateTransactionFeeFree a = 0 ∧
    STANDARD_FEE = 2500 ∧ HIGH_AMOUNT_FEE = 50000 ∧
    HIGH_AMOUNT_THRESHOLD = 250000000 := by
  refine ⟨fun hlt => ?_, fun hge => ?_, rfl, rfl, rfl, rfl⟩
  · simp [calculateTransactionFee, Nat.not_le.mpr hlt]
  · simp [calculateTransactionFee, hge]

/-- Witness for C5 at amount 100000. -/
theorem topup_fee_step_function_witness :
    (100000 < HIGH_AMOUNT_THRESHOLD →
      calculateTransactionFee 100000 = STANDARD_FEE) ∧
    (HIGH_AMOUNT_THRESHOLD ≤ 100000 →
      calculateTransactionFee 100000 = HIGH_AMOUNT_FEE) ∧
    calculateTransactionFeeFree 100000 = 0 ∧
    STANDARD_FEE = 2500 ∧ HIGH_AMOUNT_FEE = 50000 ∧
    HIGH_AMOUNT_THRESHOLD = 250000000 :=
  topup_fee_step_function 100000 (by decide)

/-- C7: a top-up submission whose amount lies outside
`[MIN_TOPUP_AMOUNT, MAX_TOPUP_AMOUNT]` or whose payment-method id is not
in the static catalog is stopped by the synchronous validation prefix of
`handleSubmit` with a validation error; the outcome is never the
`createTopUpRequest` network call, so no payment intent is created. -/
theorem topup_invalid_submission_blocked (pm : String) (amount : Nat)
    (fc : Option FeeCalculation) (bal : Nat)
    (h : amount < MIN_TOPUP_AMOUNT ∨ MAX_TOPUP_AMOUNT < amount ∨
         getSelectedPaymentMethod pm = none) :
    (∃ msg, handleSubmitValidate pm amount fc bal =
      SubmitOutcome.validationError msg) ∧
    ∀ a m, handleSubmitValidate pm amount fc bal ≠
      SubmitOutcome.networkRequest a m := by
  have hmain : ∃ msg, handleSubmitValidate pm amount fc bal =
      SubmitOutcome.validationError msg := by
    by_cases hpm : pm = ""
    · exact ⟨"Pilih metode pembayaran terlebih dahulu",
        by simp [handleSubmitValidate, hpm]⟩
    · rcases h with hmin | hmax | hnone
      · obtain ⟨m, hm⟩ : ∃ m, validateAmount amount = some m := by
          by_cases h0 : amount = 0
          · exact ⟨"Jumlah harus lebih dari 0", by simp [validateAmount, h0]⟩
          · exact ⟨"Minimum top up Rp 10.000",
              by simp [validateAmount, h0, hmin]⟩
        exact ⟨m, by simp [handleSubmitValidate, hpm, hm]⟩
      · have hm : validateAmount amount = some "Maximum top up Rp 10.000.000" := by
          unfold validateAmount
          unfold MAX_TOPUP_AMOUNT at hmax
          have h0 : amount ≠ 0 := by omega
          have h1 : ¬ amount < MIN_TOPUP_AMOUNT := by
            unfold MIN_TOPUP_AMOUNT; omega
          have h2 : amount > MAX_TOPUP_AMOUNT := by
            unfold MAX_TOPUP_AMOUNT; omega
          simp [h0, h1, h2]
        exact ⟨"Maximum top up Rp 10.000.000",
          by simp [handleSubmitValidate, hpm, hm]⟩
      · cases hva : validateAmount amount with
        | some m => exact ⟨m, by simp [handleSubmitValidate, hpm, hva]⟩
        | none => exact ⟨"Metode pembayaran tidak valid",
            by simp [handleSubmitValidate, hpm, hva, hnone]⟩
  obtain ⟨msg, hmsg⟩ := hmain
  exact ⟨⟨msg, hmsg⟩, fun a m hc => by rw [hmsg] at hc; exact absurd hc (by simp)⟩

/-- Witness for C7: amount 5000 (below the minimum) with a valid method
and no fee record. -/
theorem topup_invalid_submission_blocked_witness :
    (∃ msg, handleSubmitValidate "ID_OVO" 5000 none 500000 =
      SubmitOutcome.validationError msg) ∧
    ∀ a m, handleSubmitValidate "ID_OVO" 5000 none 500000 ≠
      SubmitOutcome.networkRequest a m :=
  topup_invalid_submission_blocked "ID_OVO" 5000 none 500000
    (Or.inl (by decide))

/-! ## Claim theorems: transfer and withdraw fees -/

/-- Counterexample to C6: at amount 150 the transfer preview's fee is
the exact product `150 * 0.01 = 3/2`, while `⌈150 * 0.01⌉ = 2`; the code
never applies a ceiling, so the previewed fee differs from
`ceil(a * 0.01)` (and is not even an integer). -/
theorem transfer_fee_not_ceiled_at_150 :
    (handleInitiateTransfer "user-1" 150 "" 10000).previewFee = some (3 / 2) ∧
    (⌈(150 : ℚ) * (1 / 100)⌉ : ℤ) = 2 ∧
    (handleInitiateTransfer "user-1" 150 "" 10000).previewFee ≠ some 2 ∧
    (handleInitiateWithdraw "BCA" "123" "A B" 150 10000).previewWithdrawFee =
      some (3 / 2) := by
  have h1 : ¬ ("user-1" = "") := by decide
  have h2 : ¬ ((150 : ℚ) ≤ 0) := by norm_num
  have h3 : ¬ ((150 : ℚ) + 150 * (1 / 100) > 10000) := by norm_num
  have hfee : (handleInitiateTransfer "user-1" 150 "" 10000).previewFee =
      some (150 * (1 / 100)) := by
    simp only [handleInitiateTransfer]
    rw [if_neg h1, if_neg h2, if_neg h3]
    rfl
  have hw1 : ¬ ("BCA" = "") := by decide
  have hw2 : ¬ ((decide ("123" = "") || decide ("A B" = "")) = true) := by decide
  have hw3 : ¬ ((150 : ℚ) > 10000) := by norm_num
  refine ⟨?_, ?_, ?_, ?_⟩
  · rw [hfee]; norm_num
  · norm_num [Int.ceil_eq_iff]
  · rw [hfee]; norm_num
  · simp only [handleInitiateWithdraw]
    rw [if_neg hw1, if_neg hw2, if_neg h2, if_neg hw3]
    norm_num [WithdrawOutcome.previewWithdrawFee]

/-- C6 as amended: for every positive amount that passes the balance
checks, the transfer preview's fee is exactly `a * 0.01` (the rational
`a/100`, with no rounding) and the total debited is `a + a * 0.01`; the
withdraw preview's fee is exactly `a * 0.01` and the amount the bank
account receives is `a - a * 0.01`. -/
theorem transfer_withdraw_fee_exact (a bal : ℚ) (r acct holder : String)
    (hr : r ≠ "") (hacct : acct ≠ "") (hholder : holder ≠ "")
    (ha : 0 < a) (hbal : a + a * (1 / 100) ≤ bal) (hwbal : a ≤ bal) :
    (handleInitiateTransfer r a "" bal).previewFee = some (a * (1 / 100)) ∧
    (handleInitiateTransfer r a "" bal).previewTotal =
      some (a + a * (1 / 100)) ∧
    (handleInitiateWithdraw "BCA" acct holder a bal).previewWithdrawFee =
      some (a * (1 / 100)) ∧
    (handleInitiateWithdraw "BCA" acct holder a bal).previewReceived =
      some (a - a * (1 / 100)) := by
  have hna : ¬ a ≤ 0 := not_le.mpr ha
  have hnb : ¬ a + a * (1 / 100) > bal := not_lt.mpr hbal
  have hnw : ¬ a > bal := not_lt.mpr hwbal
  refine ⟨?_, ?_, ?_, ?_⟩
  · simp only [handleInitiateTransfer]
    rw [if_neg hr, if_neg hna, if_neg hnb]
    rfl
  · simp only [handleInitiateTransfer]
    rw [if_neg hr, if_neg hna, if_neg hnb]
    rfl
  · simp [handleInitiateWithdraw, WithdrawOutcome.previewWithdrawFee,
      hacct, hholder, hna, hnw]
  · simp [handleInitiateWithdraw, WithdrawOutcome.previewReceived,
      hacct, hholder, hna, hnw]

/-- Witness for the amended C6 at amount 150 with balance 10000. -/
theorem transfer_withdraw_fee_exact_witness :
    (handleInitiateTransfer "user-1" 150 "" 10000).previewFee =
      some (150 * (1 / 100)) ∧
    (handleInitiateTransfer "user-1" 150 "" 10000).previewTotal =
      some (150 + 150 * (1 / 100)) ∧
    (handleInitiateWithdraw "BCA" "123" "A B" 150 10000).previewWithdrawFee =
      some (150 * (1 / 100)) ∧
    (handleInitiateWithdraw "BCA" "123" "A B" 150 10000).previewReceived =
      some (150 - 150 * (1 / 100)) :=
  transfer_withdraw_fee_exact 150 10000 "user-1" "123" "A B"
    (by decide) (by decide) (by decide)
    (by norm_num) (by norm_num) (by norm_num)

/-- C8: the transfer preview runs its checks in the order
required-field presence (recipient id), positive amount, sufficient
balance including the 1% fee; the first failing check determines the
outcome, and the confirmation step (the only path to the network
submission) is reached exactly when all checks pass.  In particular,
with balance 5000 and requested amount 10000 the preview stops at the
insufficient-balance check and never reaches confirmation. -/
theorem transfer_preview_validation_order (r d : String) (a bal : ℚ) :
    (handleInitiateTransfer r a d bal = .missingRecipient ↔ r = "") ∧
    (handleInitiateTransfer r a d bal = .invalidAmount ↔ r ≠ "" ∧ a ≤ 0) ∧
    (handleInitiateTransfer r a d bal = .insufficientBalance ↔
      r ≠ "" ∧ 0 < a ∧ bal < a + a * (1 / 100)) ∧
    ((∃ dt, handleInitiateTransfer r a d bal = .confirm dt) ↔
      r ≠ "" ∧ 0 < a ∧ a + a * (1 / 100) ≤ bal) ∧
    (r ≠ "" → handleInitiateTransfer r 10000 d 5000 = .insufficientBalance) := by
  have hconc : ∀ d' : String, r ≠ "" →
      handleInitiateTransfer r 10000 d' 5000 = .insufficientBalance := by
    intro d' hr
    simp only [handleInitiateTransfer]
    rw [if_neg hr, if_neg (by norm_num : ¬ ((10000 : ℚ) ≤ 0)),
        if_pos (by norm_num : (5000 : ℚ) < 10000 + 10000 * (1 / 100))]
  by_cases hr : r = ""
  · subst hr
    have hmain : handleInitiateTransfer "" a d bal = .missingRecipient := by
      simp [handleInitiateTransfer]
    refine ⟨?_, ?_, ?_, ?_, fun hr' => absurd rfl hr'⟩ <;> simp [hmain]
  · by_cases ha : a ≤ 0
    · have hmain : handleInitiateTransfer r a d bal = .invalidAmount := by
        simp only [handleInitiateTransfer]; rw [if_neg hr, if_pos ha]
      have hna : ¬ (0 < a) := not_lt.mpr ha
      refine ⟨?_, ?_, ?_, ?_, hconc d⟩ <;> simp [hmain, hr, ha, hna]
    · by_cases hb : a + a * (1 / 100) > bal
      · have hmain : handleInitiateTransfer r a d bal = .insufficientBalance := by
          simp only [handleInitiateTransfer]; rw [if_neg hr, if_neg ha, if_pos hb]
        have hpos : 0 < a := not_le.mp ha
        have hnle : ¬ (a + a * (1 / 100) ≤ bal) := not_le.mpr hb
        refine ⟨?_, ?_, ?_, ?_, hconc d⟩ <;>
          simp [hmain, hr, ha, hpos, hb, hnle] <;> linarith
      · have hmain : handleInitiateTransfer r a d bal = .confirm
            ⟨r, a, a * (1 / 100), a + a * (1 / 100),
             if d = "" then "Transfer to user" else d⟩ := by
          simp only [handleInitiateTransfer]; rw [if_neg hr, if_neg ha, if_neg hb]
        have hpos : 0 < a := not_le.mp ha
        have hle : a + a * (1 / 100) ≤ bal := not_lt.mp hb
        have hnb : ¬ (bal < a + a * (1 / 100)) := not_lt.mpr (not_lt.mp hb)
        refine ⟨?_, ?_, ?_, ?_, hconc d⟩ <;>
          simp [hmain, hr, ha, hpos, hle, hnb] <;> linarith

/-- Witness for C8: the concrete insufficient-funds scenario
(balance 5000, amount 10000). -/
theorem transfer_preview_validation_order_witness :
    handleInitiateTransfer "user-1" 10000 "" 5000 =
      TransferOutcome.insufficientBalance :=
  (transfer_preview_validation_order "user-1" "" 10000 5000).2.2.2.2
    (by decide)

/-! ## Claim theorems: submission failure handling -/

/-- Counterexample to C9: in a development build
(`process.env.NODE_ENV === 'development'`), a transfer submission whose
network call fails is reported to the user as a *success* toast
("Transfer Successful (Simulation)", non-destructive), not as an error
message, and similarly for withdraw.  So the claim as stated — every
failed submission surfaces an error message — does not hold for every
deployment of the code. -/
theorem dev_mode_failure_reported_as_success :
    (handleTransfer true ⟨"user-1", 100, 1, 101, "d"⟩ (.fail none)).toast.title =
      "Transfer Successful (Simulation)" ∧
    (handleTransfer true ⟨"user-1", 100, 1, 101, "d"⟩
      (.fail none)).toast.destructive = false ∧
    (handleTransfer true ⟨"user-1", 100, 1, 101, "d"⟩ (.fail none)).toast.title ≠
      "Transfer Failed" ∧
    (handleWithdraw true ⟨100, 1, 99, "BCA", "123", "A B"⟩
      (.fail none)).toast.title = "Withdrawal Initiated (Simulation)" := by
  refine ⟨rfl, rfl, ?_, rfl⟩
  simp [handleTransfer]

/-- C9 as amended: when the build is not a development build, a transfer
or withdraw submission whose network call fails surfaces a destructive
toast carrying the server's error message when one is available and the
generic fallback otherwise; in every build and on every outcome
(success, failure, dev or production) the confirmation dialog is closed;
and no automatic retry happens (each handler consumes exactly one
network result by construction). -/
theorem submission_failure_surfaced_no_retry (devMode : Bool)
    (details : TransferDetails) (wdetails : WithdrawDetails)
    (result : NetResult) (serverError : Option String) :
    (handleTransfer devMode details result).confirmOpen = false ∧
    (handleWithdraw devMode wdetails result).confirmOpen = false ∧
    (handleTransfer false details (.fail serverError)).toast =
      ⟨"Transfer Failed",
       serverError.getD "Failed to process your transfer", true⟩ ∧
    (handleWithdraw false wdetails (.fail serverError)).toast =
      ⟨"Withdrawal Failed",
       serverError.getD "Failed to process your withdrawal", true⟩ := by
  refine ⟨?_, ?_, rfl, rfl⟩
  · cases result with
    | ok name => rfl
    | fail e => cases devMode <;> rfl
  · cases result with
    | ok name => rfl
    | fail e => cases devMode <;> rfl

/-! ## Claim theorems: unknown poll status -/

/-- C10: a poll response whose status is outside
{PENDING, COMPLETED, FAILED, CANCELLED} falls into the `switch`'s
`default` branch: the only state change of that attempt is the attempt
counter (already set before the response was inspected), no terminal
transition happens, no next attempt is scheduled, and at the run level
the loop halts right there with the session still in its previous phase
and `isPolling` unchanged (still flagged active). -/
theorem poll_unknown_status_frame (n : Nat) (st : PollerState)
    (sd : PaymentStatus)
    (h1 : sd.status ≠ "PENDING") (h2 : sd.status ≠ "COMPLETED")
    (h3 : sd.status ≠ "FAILED") (h4 : sd.status ≠ "CANCELLED") :
    pollStep n (.ok sd) st = ({ st with pollingAttempts := n + 1 }, none) ∧
    (pollStep n (.ok sd) st).1.paymentStatus = st.paymentStatus ∧
    (pollStep n (.ok sd) st).1.isPolling = st.isPolling ∧
    ∀ fuel script, script n = .ok sd → st.isPolling = true →
      pollRun script (fuel + 1) n st =
        ({ st with pollingAttempts := n + 1 },
         [{ st with pollingAttempts := n + 1 }]) := by
  have hstep : pollStep n (.ok sd) st =
      ({ st with pollingAttempts := n + 1 }, none) := by
    simp [pollStep, h1, h2, h3, h4]
  refine ⟨hstep, by rw [hstep], by rw [hstep], ?_⟩
  intro fuel script hscript hactive
  simp only [pollRun, hactive, if_true, hscript, hstep]

/-- Witness for C10: a snapshot with the out-of-catalog status
`"EXPIRED"` at attempt 5 of an active waiting session. -/
theorem poll_unknown_status_frame_witness :
    pollStep 5 (.ok ⟨"EXPIRED", 100000, "ref-5", 500000, "t0"⟩)
        ⟨true, .waiting, 5, 500000, "ref-5"⟩ =
      ({ isPolling := true, paymentStatus := .waiting, pollingAttempts := 6,
         currentBalance := 500000, currentReferenceId := "ref-5" }, none) :=
  (poll_unknown_status_frame 5 ⟨true, .waiting, 5, 500000, "ref-5"⟩
    ⟨"EXPIRED", 100000, "ref-5", 500000, "t0"⟩
    (by decide) (by decide) (by decide) (by decide)).1
